import Mathlib

/-!
Verification of the post-store HTTP backend (`src/server.js`).

The server keeps a mutable ordered collection `blogPosts` of JSON objects and
exposes list / create / update / delete routes, a production-only static
fallback, and a centralized error handler.  We embed JSON values and objects
shallowly: a JS object is an association list whose lookup returns the value
with highest precedence first, so the JS spread `\x7b a..., b... \x7d` (where
fields of `b` win) is modelled by listing the fields of `b` in front of the
fields of `a`.
-/

set_option autoImplicit false

namespace PostStore

/-- A JSON value, as produced by the body parser and stored in `blogPosts`. -/
inductive Value where
  | null
  | bool (b : Bool)
  | num (n : Int)
  | str (s : String)
  | arr (elems : List Value)
  | obj (fields : List (String × Value))

/-- A JS object: an ordered field list where an earlier binding for a key
shadows a later one (spread precedence is encoded by list order). -/
abbrev Obj := List (String × Value)

/-- Field access `o.k`: the first binding of `k` wins, `none` plays the role
of JS `undefined`. -/
def getF : Obj → String → Option Value
  | [], _ => none
  | (k, v) :: rest, key => if key = k then some v else getF rest key

/-- JS strict equality `x === s` between a possibly-undefined value `x` and a
string `s`: true exactly when `x` is the string `s`. -/
def strictEqStr : Option Value → String → Bool
  | some (Value.str t), s => decide (t = s)
  | _, _ => false

/-- The first seed record of `blogPosts` (server.js lines 84-93). -/
def seedPost1 : Obj :=
  [ ("id", Value.str "post_1678886400000"),
    ("title", Value.str "First Blog Post"),
    ("snippet", Value.str "A short introduction to my blog."),
    ("fullContent", Value.str "This is the full content of the first blog post. It covers various topics related to web development and personal experiences."),
    ("author", Value.str "Sourabh Madane"),
    ("date", Value.str "2023-03-15"),
    ("timestamp", Value.num 1678886400000),
    ("images", Value.arr []) ]

/-- The second seed record of `blogPosts` (server.js lines 94-106). -/
def seedPost2 : Obj :=
  [ ("id", Value.str "post_1678972800000"),
    ("title", Value.str "Angular Standalone Components"),
    ("snippet", Value.str "Exploring the new features in Angular 17+."),
    ("fullContent", Value.str "Dive deep into Angular 17's standalone components, a feature that simplifies the Angular development experience by removing the need for NgModules."),
    ("author", Value.str "Sourabh Madane"),
    ("date", Value.str "2023-03-16"),
    ("timestamp", Value.num 1678972800000),
    ("images", Value.arr
      [ Value.obj [ ("url", Value.str "https://placehold.co/600x400/87CEFA/FFFFFF?text=Angular+17"),
                    ("prompt", Value.str "Angular 17 logo concept") ],
        Value.obj [ ("url", Value.str "https://placehold.co/600x400/D4BFFF/FFFFFF?text=Standalone"),
                    ("prompt", Value.str "Code snippets for standalone components") ] ]) ]

/-- The initial value of the `blogPosts` collection. -/
def initialPosts : List Obj := [seedPost1, seedPost2]

/-- The new record built by `POST /api/posts` (server.js lines 117-121):
`\x7b id: post_Date.now(), timestamp: Date.now(), ...req.body \x7d`.
`nowId` and `nowTs` are the results of the two (back-to-back) `Date.now()`
calls.  Because the body is spread last, its fields take precedence, which
our encoding renders by putting `body` in front. -/
def createPost (nowId nowTs : Nat) (body : Obj) : Obj :=
  body ++ [ ("id", Value.str ("post_" ++ toString nowId)),
            ("timestamp", Value.num nowTs) ]

/-- The record `p` matches the route parameter `postId`
(JS `p.id === postId`). -/
def idMatches (postId : String) (p : Obj) : Bool :=
  strictEqStr (getF p "id") postId

/-- Body of a JSON HTTP response, or no body at all. -/
inductive ResBody where
  | json (v : Value)
  | file (content : String)
  | empty

/-- An HTTP response: status code and body. -/
structure HttpResponse where
  status : Nat
  body : ResBody

/-- The 404 response shared by the update and delete routes. -/
def notFoundResponse : HttpResponse :=
  ⟨404, ResBody.json (Value.obj [("message", Value.str "Post not found")])⟩

/-- `findIndex` + in-place replacement of `PUT /api/posts/:id` (server.js
lines 131-137): replace the first record whose id matches `postId` by
`\x7b ...stored, ...body, id: postId \x7d` and return the new collection together
with the updated record; `none` when `findIndex` returns `-1`. -/
def updateList (posts : List Obj) (postId : String) (body : Obj) :
    Option (List Obj × Obj) :=
  match posts with
  | [] => none
  | p :: rest =>
    if idMatches postId p then
      let updated : Obj := (("id", Value.str postId) :: body) ++ p
      some (updated :: rest, updated)
    else
      match updateList rest postId body with
      | some (rest', u) => some (p :: rest', u)
      | none => none

/-- The `PUT /api/posts/:id` handler: new collection and HTTP response. -/
def updatePost (posts : List Obj) (postId : String) (body : Obj) :
    List Obj × HttpResponse :=
  match updateList posts postId body with
  | some (posts', u) => (posts', ⟨200, ResBody.json (Value.obj u)⟩)
  | none => (posts, notFoundResponse)

/-- The `DELETE /api/posts/:id` handler (server.js lines 146-156): filter out
every record whose id matches, then compare lengths to decide 204 vs 404. -/
def deletePost (posts : List Obj) (postId : String) :
    List Obj × HttpResponse :=
  let remaining := posts.filter (fun p => !idMatches postId p)
  if remaining.length < posts.length then
    (remaining, ⟨204, ResBody.empty⟩)
  else
    (posts, notFoundResponse)

/-- The serialized error object a route failure hands to the centralized
error middleware: `err.message`, an optional numeric `err.status`
(`none` models an absent/undefined status) and the serialization of `err`
itself, which is what `res.json` would send as the `error` field. -/
structure JsError where
  message : String
  status : Option Nat
  details : Value

/-- `err.status || 500` (server.js line 189): the declared status when
present and truthy (a `0` status is falsy in JS), 500 otherwise. -/
def errorStatus (err : JsError) : Nat :=
  match err.status with
  | some s => if s = 0 then 500 else s
  | none => 500

/-- The JSON body sent by the centralized error middleware (server.js lines
189-193): a fixed message, and the error details exactly when
`NODE_ENV === 'development'`, an empty object otherwise. -/
def errorBody (mode : String) (err : JsError) : Obj :=
  [ ("message", Value.str "An unexpected error occurred. Please try again later."),
    ("error", if mode = "development" then err.details else Value.obj []) ]

/-- The centralized error middleware (server.js lines 181-194). -/
def errorHandler (mode : String) (err : JsError) : HttpResponse :=
  ⟨errorStatus err, ResBody.json (Value.obj (errorBody mode err))⟩

/-- HTTP request methods the app routes on. -/
inductive Method where
  | get
  | post
  | put
  | delete
deriving DecidableEq

/-- Express pattern `/api/posts/:id`: matches exactly the paths of the form
`/api/posts/<seg>` with `<seg>` a non-empty segment containing no further
slash, and extracts `req.params.id`. -/
def apiPostsIdParam (path : String) : Option String :=
  match path.data with
  | '/' :: 'a' :: 'p' :: 'i' :: '/' :: 'p' :: 'o' :: 's' :: 't' :: 's' :: '/' :: rest =>
      if rest ≠ [] ∧ '/' ∉ rest then some (String.mk rest) else none
  | _ => none

/-- One request through the app's routing table, in registration order
(server.js lines 110-177): the four API routes first; then, only when
`NODE_ENV === 'production'`, `express.static` (modelled by the function
`staticFS` from paths to file contents, and answering GET only) followed by
the `app.get('*')` fallback that sends `index.html`; a request matching
nothing gets the framework's default 404.  A missing `index.html` makes
`res.sendFile` fail into the centralized error middleware with an
ENOENT error carrying status 404.  Returns the new collection and the
response. -/
def handleRequest (mode : String) (staticFS : String → Option String)
    (posts : List Obj) (nowId nowTs : Nat) (m : Method) (path : String)
    (body : Obj) : List Obj × HttpResponse :=
  if m = Method.get ∧ path = "/api/posts" then
    (posts, ⟨200, ResBody.json (Value.arr (posts.map Value.obj))⟩)
  else if m = Method.post ∧ path = "/api/posts" then
    let newPost := createPost nowId nowTs body
    (posts ++ [newPost], ⟨201, ResBody.json (Value.obj newPost)⟩)
  else
    match m, apiPostsIdParam path with
    | Method.put, some postId => updatePost posts postId body
    | Method.delete, some postId => deletePost posts postId
    | _, _ =>
      if mode = "production" then
        if m = Method.get then
          match staticFS path with
          | some content => (posts, ⟨200, ResBody.file content⟩)
          | none =>
            match staticFS "index.html" with
            | some index => (posts, ⟨200, ResBody.file index⟩)
            | none => (posts, errorHandler mode ⟨"ENOENT", some 404, Value.obj []⟩)
        else (posts, ⟨404, ResBody.empty⟩)
      else (posts, ⟨404, ResBody.empty⟩)

/-- The number of records of `posts` whose id matches `postId`. -/
def matchCount (posts : List Obj) (postId : String) : Nat :=
  posts.countP (fun p => idMatches postId p)

/-- Lookup distributes over append when the left part has the key. -/
theorem getF_append_left {l₁ : Obj} (l₂ : Obj) {k : String} {v : Value}
    (h : getF l₁ k = some v) : getF (l₁ ++ l₂) k = some v := by
  induction l₁ with
  | nil => simp [getF] at h
  | cons kv rest ih =>
    obtain ⟨k2, v2⟩ := kv
    by_cases hk : k = k2
    · simp [getF, hk] at h ⊢
      exact h
    · simp [getF, hk] at h ⊢
      exact ih h

/-- Lookup distributes over append when the left part lacks the key. -/
theorem getF_append_right {l₁ : Obj} (l₂ : Obj) {k : String}
    (h : getF l₁ k = none) : getF (l₁ ++ l₂) k = getF l₂ k := by
  induction l₁ with
  | nil => rfl
  | cons kv rest ih =>
    obtain ⟨k2, v2⟩ := kv
    by_cases hk : k = k2
    · simp [getF, hk] at h
    · simp [getF, hk] at h ⊢
      exact ih h

/-- JS strict equality with a string holds exactly for that string value. -/
theorem strictEqStr_eq_true_iff (x : Option Value) (s : String) :
    strictEqStr x s = true ↔ x = some (Value.str s) := by
  cases x with
  | none => simp [strictEqStr]
  | some v => cases v <;> simp [strictEqStr]

/-- Unfolding of `idMatches` to a statement about the id field. -/
theorem idMatches_eq_true_iff (postId : String) (p : Obj) :
    idMatches postId p = true ↔ getF p "id" = some (Value.str postId) :=
  strictEqStr_eq_true_iff (getF p "id") postId

/-- `updateList` fails on a collection with no matching record
(`findIndex` returns `-1`). -/
theorem updateList_eq_none_of_no_match (posts : List Obj) (postId : String)
    (body : Obj) (h : ∀ p ∈ posts, idMatches postId p = false) :
    updateList posts postId body = none := by
  induction posts with
  | nil => rfl
  | cons q rest ih =>
    have hq : idMatches postId q = false := h q (by simp)
    have hrest : updateList rest postId body = none :=
      ih (fun p hp => h p (List.mem_cons_of_mem _ hp))
    simp [updateList, hq, hrest]

/-- A successful `updateList` produces the merge of the first matching
record with the body, with the id re-asserted on top. -/
theorem updateList_eq_some (posts : List Obj) (postId : String) (body : Obj)
    (posts' : List Obj) (u : Obj)
    (h : updateList posts postId body = some (posts', u)) :
    ∃ p, posts.find? (idMatches postId) = some p
      ∧ u = (("id", Value.str postId) :: body) ++ p := by
  induction posts generalizing posts' u with
  | nil => simp [updateList] at h
  | cons q rest ih =>
    by_cases hq : idMatches postId q
    · refine ⟨q, List.find?_cons_of_pos rest hq, ?_⟩
      simp only [updateList, hq, if_pos] at h
      have := (Option.some.injEq _ _).mp h
      exact ((Prod.mk.injEq _ _ _ _).mp this).2.symm
    · cases hrest : updateList rest postId body with
      | none =>
        simp [updateList, hq, hrest] at h
      | some pr =>
        obtain ⟨rest', u'⟩ := pr
        simp only [updateList, hq, if_neg, hrest] at h
        have := (Option.some.injEq _ _).mp h
        obtain ⟨-, hu⟩ := (Prod.mk.injEq _ _ _ _).mp this
        obtain ⟨p, hfind, hup⟩ := ih rest' u' hrest
        exact ⟨p, by rw [List.find?_cons_of_neg rest (by simpa using hq), hfind],
          hu ▸ hup⟩

/-- Filtering out the matches drops exactly `matchCount` records. -/
theorem length_filter_not_matches (posts : List Obj) (postId : String) :
    (posts.filter (fun p => !idMatches postId p)).length
      = posts.length - matchCount posts postId := by
  induction posts with
  | nil => rfl
  | cons q rest ih =>
    have hle : matchCount rest postId ≤ rest.length :=
      List.countP_le_length _
    cases hq : idMatches postId q
    · simp [List.filter_cons, matchCount, List.countP_cons, hq] at *
      omega
    · simp [List.filter_cons, matchCount, List.countP_cons, hq] at *
      omega

/-- Claim C1 counterexample: the spread `...req.body` comes last in the
object literal, so a payload that supplies its own `id` and `timestamp`
overrides the generated values: `create` at time 5 with payload
`\x7b id: "hijack", timestamp: 42 \x7d` returns a record with id `"hijack"`
(not `"post_5"`) and timestamp `42` (not `5`). -/
theorem create_generated_fields_precedence_counterexample :
    getF (createPost 5 5 [("id", Value.str "hijack"), ("timestamp", Value.num 42)]) "id"
        = some (Value.str "hijack")
  ∧ getF (createPost 5 5 [("id", Value.str "hijack"), ("timestamp", Value.num 42)]) "timestamp"
        = some (Value.num 42)
  ∧ "hijack" ≠ "post_5"
  ∧ (42 : Int) ≠ 5 :=
  ⟨rfl, rfl, by decide, by decide⟩

/-- Claim C1 (amended): in the record built by create, the client payload
takes precedence over the generated `id` and `timestamp`; the generated
values act only as defaults used when the payload lacks the field.  The
created record is returned with status 201 and appended to the collection. -/
theorem create_payload_overrides_generated (nowId nowTs : Nat) (body : Obj) :
    (getF body "id" = none →
      getF (createPost nowId nowTs body) "id"
        = some (Value.str ("post_" ++ toString nowId)))
  ∧ (∀ v, getF body "id" = some v → getF (createPost nowId nowTs body) "id" = some v)
  ∧ (getF body "timestamp" = none →
      getF (createPost nowId nowTs body) "timestamp" = some (Value.num nowTs))
  ∧ (∀ v, getF body "timestamp" = some v →
      getF (createPost nowId nowTs body) "timestamp" = some v)
  ∧ (∀ (mode : String) (fs : String → Option String) (posts : List Obj),
      handleRequest mode fs posts nowId nowTs Method.post "/api/posts" body
        = (posts ++ [createPost nowId nowTs body],
           ⟨201, ResBody.json (Value.obj (createPost nowId nowTs body))⟩)) := by
  refine ⟨?_, ?_, ?_, ?_, ?_⟩
  · intro h
    rw [createPost, getF_append_right _ h]
    rfl
  · intro v h
    exact getF_append_left _ h
  · intro h
    rw [createPost, getF_append_right _ h]
    rfl
  · intro v h
    exact getF_append_left _ h
  · intro mode fs posts
    simp [handleRequest]

/-- Claim C1 amended witness: concrete create calls with and without
client-supplied `id`. -/
theorem create_payload_overrides_generated_witness :
    getF (createPost 3 3 [("title", Value.str "T")]) "id" = some (Value.str "post_3")
  ∧ getF (createPost 3 3 [("id", Value.str "x")]) "id" = some (Value.str "x") :=
  ⟨(create_payload_overrides_generated 3 3 [("title", Value.str "T")]).1 rfl,
   (create_payload_overrides_generated 3 3 [("id", Value.str "x")]).2.1
     (Value.str "x") rfl⟩

/-- Claim C2 counterexample: the generated id is `post_` followed by
`Date.now()`, with no look at the collection: a create whose millisecond
clock reads 1678886400000 produces exactly the id of the first seed record,
which is already present in the collection — so the generated id is not
distinct from every id already present, and two creates in the same
millisecond collide the same way. -/
theorem create_id_unique_counterexample :
    getF (createPost 1678886400000 1678886400000 []) "id"
        = some (Value.str "post_1678886400000")
  ∧ seedPost1 ∈ initialPosts
  ∧ getF seedPost1 "id" = some (Value.str "post_1678886400000") :=
  ⟨rfl, by simp [initialPosts], rfl⟩

/-- Claim C2 (amended): when the payload supplies no `id`, the assigned id
is the non-empty string `post_` followed by the current millisecond time;
it is distinct from the ids already in the collection only when none of
them equals that string (same-millisecond creates, or a create whose clock
matches an existing id, collide). -/
theorem create_id_shape_nonempty (nowId nowTs : Nat) (body : Obj)
    (h : getF body "id" = none) :
    getF (createPost nowId nowTs body) "id"
        = some (Value.str ("post_" ++ toString nowId))
  ∧ ("post_" ++ toString nowId) ≠ ""
  ∧ (∀ posts : List Obj, (∀ p ∈ posts, getF p "id" ≠ some (Value.str ("post_" ++ toString nowId))) →
      ∀ p ∈ posts, getF p "id" ≠ getF (createPost nowId nowTs body) "id") := by
  have hid : getF (createPost nowId nowTs body) "id"
      = some (Value.str ("post_" ++ toString nowId)) := by
    rw [createPost, getF_append_right _ h]
    rfl
  refine ⟨hid, ?_, ?_⟩
  · intro habs
    have hlen : ("post_" ++ toString nowId).length = 0 := by rw [habs]; rfl
    rw [String.length_append, show "post_".length = 5 from rfl] at hlen
    omega
  · intro posts hdistinct p hp
    rw [hid]
    exact hdistinct p hp

/-- Claim C2 amended witness: a concrete create call at time 3. -/
theorem create_id_shape_nonempty_witness :
    getF (createPost 3 3 [("title", Value.str "T")]) "id"
        = some (Value.str "post_3")
  ∧ ("post_" ++ toString 3) ≠ "" :=
  ⟨(create_id_shape_nonempty 3 3 [("title", Value.str "T")] rfl).1,
   (create_id_shape_nonempty 3 3 [("title", Value.str "T")] rfl).2.1⟩

/-- Claim C7 counterexample: create never adds an `images` field of its own:
a payload without `images` yields a record whose `images` is absent
(JS `undefined`), not the empty sequence. -/
theorem create_images_default_counterexample :
    getF (createPost 5 5 [("title", Value.str "T")]) "images" = none
  ∧ (none : Option Value) ≠ some (Value.arr []) :=
  ⟨rfl, fun habs => Option.noConfusion habs⟩

/-- Claim C7 (amended): the created record carries an `images` field exactly
when the payload supplies one, and then verbatim; when the payload lacks
`images` the field is absent from the record (there is no empty-sequence
default). -/
theorem create_images_passthrough (nowId nowTs : Nat) (body : Obj) :
    (getF body "images" = none → getF (createPost nowId nowTs body) "images" = none)
  ∧ (∀ v, getF body "images" = some v →
      getF (createPost nowId nowTs body) "images" = some v) := by
  constructor
  · intro h
    rw [createPost, getF_append_right _ h]
    rfl
  · intro v h
    exact getF_append_left _ h

/-- Claim C7 amended witness: a create with a `\x7b url, prompt \x7d` image list
stores it verbatim, and one without `images` stores nothing. -/
theorem create_images_passthrough_witness :
    getF (createPost 3 3
        [("images", Value.arr [Value.obj [("url", Value.str "u"), ("prompt", Value.str "p")]])])
        "images"
      = some (Value.arr [Value.obj [("url", Value.str "u"), ("prompt", Value.str "p")]])
  ∧ getF (createPost 3 3 [("title", Value.str "T")]) "images" = none :=
  ⟨(create_images_passthrough 3 3
      [("images", Value.arr [Value.obj [("url", Value.str "u"), ("prompt", Value.str "p")]])]).2
      (Value.arr [Value.obj [("url", Value.str "u"), ("prompt", Value.str "p")]]) rfl,
   (create_images_passthrough 3 3 [("title", Value.str "T")]).1 rfl⟩

/-- Claim C10: create merges the payload permissively: any payload key
outside the Post schema is stored verbatim in the new record, the record is
appended and returned with status 201, and the subsequent list route
returns the collection containing it. -/
theorem create_permissive_merge_extra_keys (nowId nowTs : Nat) (body : Obj)
    (k : String) (v : Value)
    (_hk : k ∉ (["id", "title", "snippet", "fullContent", "author", "date",
                "timestamp", "images"] : List String))
    (hv : getF body k = some v) :
    getF (createPost nowId nowTs body) k = some v
  ∧ (∀ (mode : String) (fs : String → Option String) (posts : List Obj),
      handleRequest mode fs posts nowId nowTs Method.post "/api/posts" body
        = (posts ++ [createPost nowId nowTs body],
           ⟨201, ResBody.json (Value.obj (createPost nowId nowTs body))⟩))
  ∧ (∀ (mode : String) (fs : String → Option String) (posts : List Obj)
        (nowId2 nowTs2 : Nat) (body2 : Obj),
      handleRequest mode fs (posts ++ [createPost nowId nowTs body])
          nowId2 nowTs2 Method.get "/api/posts" body2
        = (posts ++ [createPost nowId nowTs body],
           ⟨200, ResBody.json
              (Value.arr ((posts ++ [createPost nowId nowTs body]).map Value.obj))⟩))
  ∧ (∀ posts : List Obj,
      Value.obj (createPost nowId nowTs body)
        ∈ (posts ++ [createPost nowId nowTs body]).map Value.obj) := by
  refine ⟨getF_append_left _ hv, ?_, ?_, ?_⟩
  · intro mode fs posts
    simp [handleRequest]
  · intro mode fs posts nowId2 nowTs2 body2
    simp [handleRequest]
  · intro posts
    simp

/-- Claim C10 witness: a concrete create call carrying an extra key. -/
theorem create_permissive_merge_extra_keys_witness :
    getF (createPost 3 3 [("wildField", Value.str "w")]) "wildField"
      = some (Value.str "w") :=
  (create_permissive_merge_extra_keys 3 3 [("wildField", Value.str "w")]
    "wildField" (Value.str "w") (by decide) rfl).1

/-- Claim C3 counterexample: the update handler re-asserts only `id` after
the merge; a payload carrying `timestamp: 42` overwrites the stored
timestamp 1678886400000 of the first seed record. -/
theorem update_preserves_timestamp_counterexample :
    (updateList initialPosts "post_1678886400000" [("timestamp", Value.num 42)]).map
        (fun r => getF r.2 "timestamp")
      = some (some (Value.num 42))
  ∧ getF seedPost1 "timestamp" = some (Value.num 1678886400000)
  ∧ (42 : Int) ≠ 1678886400000 :=
  ⟨rfl, rfl, by decide⟩

/-- Claim C3 (amended): after an update of an existing record the id is
re-asserted, so it always equals the original id; the timestamp is kept
only when the update payload does not supply one — a payload `timestamp`
overwrites the stored value. -/
theorem update_reasserts_id_not_timestamp (posts : List Obj) (postId : String)
    (body : Obj) (posts' : List Obj) (u : Obj)
    (h : updateList posts postId body = some (posts', u)) :
    getF u "id" = some (Value.str postId)
  ∧ (∃ p, posts.find? (idMatches postId) = some p
      ∧ getF p "id" = some (Value.str postId)
      ∧ (getF body "timestamp" = none → getF u "timestamp" = getF p "timestamp")
      ∧ (∀ v, getF body "timestamp" = some v → getF u "timestamp" = some v)) := by
  obtain ⟨p, hfind, hu⟩ := updateList_eq_some posts postId body posts' u h
  subst hu
  refine ⟨by simp [getF], p, hfind,
    (idMatches_eq_true_iff postId p).mp (List.find?_some hfind), ?_, ?_⟩
  · intro hnone
    rw [List.cons_append]
    simp only [getF, show ("timestamp" = "id") = False by simp, if_false]
    exact getF_append_right _ hnone
  · intro v hv
    rw [List.cons_append]
    simp only [getF, show ("timestamp" = "id") = False by simp, if_false]
    exact getF_append_left _ hv

/-- Claim C3 amended witness: updating the first seed with an
author-only payload keeps id and timestamp. -/
theorem update_reasserts_id_not_timestamp_witness :
    getF ((("id", Value.str "post_1678886400000") :: [("author", Value.str "A")]) ++ seedPost1)
        "id" = some (Value.str "post_1678886400000") :=
  (update_reasserts_id_not_timestamp initialPosts "post_1678886400000"
    [("author", Value.str "A")] _ _ rfl).1

/-- Claim C4: an update of an existing record returns (status 200) the
stored record overlaid with every non-id payload field; the id always
equals the target id, even when the payload carries a different `id`, and
fields absent from the payload keep the value of the first matching stored
record. -/
theorem update_applies_payload_preserves_id (posts : List Obj) (postId : String)
    (body : Obj) (posts' : List Obj) (u : Obj)
    (h : updateList posts postId body = some (posts', u)) :
    updatePost posts postId body = (posts', ⟨200, ResBody.json (Value.obj u)⟩)
  ∧ getF u "id" = some (Value.str postId)
  ∧ (∀ k v, k ≠ "id" → getF body k = some v → getF u k = some v)
  ∧ (∃ p, posts.find? (idMatches postId) = some p
      ∧ ∀ k, k ≠ "id" → getF body k = none → getF u k = getF p k) := by
  obtain ⟨p, hfind, hu⟩ := updateList_eq_some posts postId body posts' u h
  subst hu
  refine ⟨by simp [updatePost, h], by simp [getF], ?_, p, hfind, ?_⟩
  · intro k v hk hv
    rw [List.cons_append]
    simp only [getF, if_neg hk]
    exact getF_append_left _ hv
  · intro k hk hnone
    rw [List.cons_append]
    simp only [getF, if_neg hk]
    exact getF_append_right _ hnone

/-- Claim C4 witness: updating the first seed with a title-only payload
keeps the id and applies the title. -/
theorem update_applies_payload_preserves_id_witness :
    getF ((("id", Value.str "post_1678886400000") :: [("title", Value.str "Edited")]) ++ seedPost1)
        "id" = some (Value.str "post_1678886400000")
  ∧ getF ((("id", Value.str "post_1678886400000") :: [("title", Value.str "Edited")]) ++ seedPost1)
        "title" = some (Value.str "Edited") :=
  ⟨(update_applies_payload_preserves_id initialPosts "post_1678886400000"
      [("title", Value.str "Edited")] _ _ rfl).2.1,
   (update_applies_payload_preserves_id initialPosts "post_1678886400000"
      [("title", Value.str "Edited")] _ _ rfl).2.2.1 "title" (Value.str "Edited")
      (by decide) rfl⟩

/-- Claim C5: an update whose target id matches no record leaves the
collection unchanged and answers 404 with message `Post not found`. -/
theorem update_missing_id_no_mutation (posts : List Obj) (postId : String)
    (body : Obj) (h : ∀ p ∈ posts, idMatches postId p = false) :
    updatePost posts postId body
      = (posts, ⟨404, ResBody.json (Value.obj [("message", Value.str "Post not found")])⟩) := by
  rw [updatePost, updateList_eq_none_of_no_match posts postId body h]
  rfl

/-- Claim C5 witness: a concrete update aimed at an id absent from the
seed collection. -/
theorem update_missing_id_no_mutation_witness :
    updatePost initialPosts "nonexistent" [("title", Value.str "X")]
      = (initialPosts,
         ⟨404, ResBody.json (Value.obj [("message", Value.str "Post not found")])⟩) :=
  update_missing_id_no_mutation initialPosts "nonexistent"
    [("title", Value.str "X")] (by decide)

/-- Claim C6 counterexample: delete filters out every matching record, so on
a collection holding two records with the same id (reachable by two creates
in the same millisecond: both get id `post_7`) a single delete shrinks the
collection by two, not by exactly one. -/
theorem delete_shrinks_exactly_one_counterexample :
    idMatches "post_7" (createPost 7 7 []) = true
  ∧ (initialPosts ++ [createPost 7 7 [], createPost 7 7 []]).length = 4
  ∧ (deletePost (initialPosts ++ [createPost 7 7 [], createPost 7 7 []]) "post_7").1.length = 2
  ∧ (deletePost (initialPosts ++ [createPost 7 7 [], createPost 7 7 []]) "post_7").2
      = ⟨204, ResBody.empty⟩ :=
  ⟨rfl, rfl, rfl, rfl⟩

/-- Claim C6 (amended): a delete with at least one matching record removes
exactly the matching records (all of them), keeps every other record, and
answers 204 with no body; when the id matches exactly one record — as the
uniqueness invariant intends — the collection shrinks by exactly one.  A
delete with no matching record leaves the collection unchanged and answers
404 with message `Post not found`. -/
theorem delete_removes_matching_records (posts : List Obj) (postId : String) :
    (0 < matchCount posts postId →
        deletePost posts postId
          = (posts.filter (fun p => !idMatches postId p), ⟨204, ResBody.empty⟩)
      ∧ (deletePost posts postId).1.length = posts.length - matchCount posts postId
      ∧ matchCount (deletePost posts postId).1 postId = 0
      ∧ (∀ p ∈ posts, idMatches postId p = false → p ∈ (deletePost posts postId).1)
      ∧ (matchCount posts postId = 1 →
          (deletePost posts postId).1.length = posts.length - 1))
  ∧ (matchCount posts postId = 0 →
      deletePost posts postId
        = (posts, ⟨404, ResBody.json (Value.obj [("message", Value.str "Post not found")])⟩)) := by
  have hflen := length_filter_not_matches posts postId
  have hcle : matchCount posts postId ≤ posts.length := List.countP_le_length _
  constructor
  · intro hpos
    have hlt : (posts.filter (fun p => !idMatches postId p)).length < posts.length := by
      rw [hflen]; omega
    have hdel : deletePost posts postId
        = (posts.filter (fun p => !idMatches postId p), ⟨204, ResBody.empty⟩) := by
      simp [deletePost, hlt]
    refine ⟨hdel, by rw [hdel]; exact hflen, ?_, ?_, ?_⟩
    · rw [hdel]
      simp only [matchCount, List.countP_eq_zero]
      intro p hp
      have := (List.mem_filter.mp hp).2
      simp only [Bool.not_eq_true'] at this
      simp [this]
    · intro p hp hfalse
      rw [hdel]
      exact List.mem_filter.mpr ⟨hp, by simp [hfalse]⟩
    · intro hone
      rw [hdel, hflen, hone]
  · intro hzero
    have hall : ∀ p ∈ posts, (!idMatches postId p) = true := by
      intro p hp
      have := List.countP_eq_zero.mp hzero p hp
      simp only [Bool.not_eq_true] at this ⊢
      simp [this]
    have heq : posts.filter (fun p => !idMatches postId p) = posts :=
      List.filter_eq_self.mpr hall
    simp [deletePost, heq]
    rfl

/-- Claim C6 amended witness: deleting the first seed id removes exactly
that record with a 204, and deleting a missing id is a 404 no-op. -/
theorem delete_removes_matching_records_witness :
    deletePost initialPosts "post_1678886400000"
        = (initialPosts.filter (fun p => !idMatches "post_1678886400000" p),
           ⟨204, ResBody.empty⟩)
  ∧ deletePost initialPosts "nope"
        = (initialPosts,
           ⟨404, ResBody.json (Value.obj [("message", Value.str "Post not found")])⟩) :=
  ⟨((delete_removes_matching_records initialPosts "post_1678886400000").1 (by decide)).1,
   (delete_removes_matching_records initialPosts "nope").2 (by decide)⟩

/-- Claim C8 counterexample: the error middleware attaches details only when
`NODE_ENV === 'development'`, not in every non-production mode: in mode
`test` (which is not `production`) the `error` field is the empty object
rather than the error details. -/
theorem error_details_nonproduction_counterexample :
    getF (errorBody "test" ⟨"boom", none, Value.str "boom details"⟩) "error"
        = some (Value.obj [])
  ∧ Value.obj [] ≠ Value.str "boom details"
  ∧ "test" ≠ "production"
  ∧ (errorHandler "test" ⟨"boom", none, Value.str "boom details"⟩).status = 500 :=
  ⟨rfl, fun habs => Value.noConfusion habs, by decide, rfl⟩

/-- Claim C8 (amended): the centralized error response always carries the
fixed message; its `error` field is the error details exactly when the mode
is `development` and the empty object in every other mode (including
non-production modes such as `test`); the status is the error's declared
status when present and truthy, and 500 otherwise. -/
theorem error_handler_contract (mode : String) (err : JsError) :
    getF (errorBody mode err) "message"
        = some (Value.str "An unexpected error occurred. Please try again later.")
  ∧ (mode = "development" → getF (errorBody mode err) "error" = some err.details)
  ∧ (mode ≠ "development" → getF (errorBody mode err) "error" = some (Value.obj []))
  ∧ (∀ s, err.status = some s → s ≠ 0 → (errorHandler mode err).status = s)
  ∧ (err.status = none → (errorHandler mode err).status = 500)
  ∧ (errorHandler mode err).body = ResBody.json (Value.obj (errorBody mode err)) := by
  refine ⟨rfl, ?_, ?_, ?_, ?_, rfl⟩
  · intro hm
    simp [errorBody, getF, hm]
  · intro hm
    simp [errorBody, getF, hm]
  · intro s hs hs0
    simp [errorHandler, errorStatus, hs, hs0]
  · intro hs
    simp [errorHandler, errorStatus, hs]

/-- Claim C8 amended witness: concrete invocations in development and
production mode, with and without a declared status. -/
theorem error_handler_contract_witness :
    getF (errorBody "development" ⟨"x", some 418, Value.str "d"⟩) "error"
        = some (Value.str "d")
  ∧ getF (errorBody "production" ⟨"x", some 418, Value.str "d"⟩) "error"
        = some (Value.obj [])
  ∧ (errorHandler "production" ⟨"x", some 418, Value.str "d"⟩).status = 418 :=
  ⟨(error_handler_contract "development" ⟨"x", some 418, Value.str "d"⟩).2.1 rfl,
   (error_handler_contract "production" ⟨"x", some 418, Value.str "d"⟩).2.2.1 (by decide),
   (error_handler_contract "production" ⟨"x", some 418, Value.str "d"⟩).2.2.2.1
      418 rfl (by decide)⟩

/-- Claim C9: in production mode, a GET matched by no API route and by no
static file is answered 200 with the index document; the API routes are
registered first, so `/api/posts` and `/api/posts/:id` are never shadowed
by the fallback; outside production mode the fallback is absent and such a
GET gets the framework 404. -/
theorem production_fallback_serves_index (fs : String → Option String)
    (posts : List Obj) (nowId nowTs : Nat) (path : String) (body : Obj)
    (index : String)
    (hpath : path ≠ "/api/posts") (hstatic : fs path = none)
    (hindex : fs "index.html" = some index) :
    handleRequest "production" fs posts nowId nowTs Method.get path body
        = (posts, ⟨200, ResBody.file index⟩)
  ∧ (∀ fs' : String → Option String,
      handleRequest "production" fs' posts nowId nowTs Method.get "/api/posts" body
        = (posts, ⟨200, ResBody.json (Value.arr (posts.map Value.obj))⟩))
  ∧ (∀ (fs' : String → Option String) (p' postId : String) (b' : Obj),
      apiPostsIdParam p' = some postId →
        handleRequest "production" fs' posts nowId nowTs Method.put p' b'
            = updatePost posts postId b'
      ∧ handleRequest "production" fs' posts nowId nowTs Method.delete p' b'
            = deletePost posts postId)
  ∧ (∀ mode' : String, mode' ≠ "production" →
      handleRequest mode' fs posts nowId nowTs Method.get path body
        = (posts, ⟨404, ResBody.empty⟩)) := by
  refine ⟨?_, ?_, ?_, ?_⟩
  · simp [handleRequest, hpath, hstatic, hindex]
  · intro fs'
    simp [handleRequest]
  · intro fs' p' postId b' hmatch
    constructor
    · simp [handleRequest, hmatch]
    · simp [handleRequest, hmatch]
  · intro mode' hmode
    simp [handleRequest, hpath, hmode]

/-- Claim C9 witness: a deep link served the index document in production. -/
theorem production_fallback_serves_index_witness :
    handleRequest "production"
        (fun p => if p = "index.html" then some "INDEX" else none)
        initialPosts 5 5 Method.get "/some/deep/link" []
      = (initialPosts, ⟨200, ResBody.file "INDEX"⟩) :=
  (production_fallback_serves_index
    (fun p => if p = "index.html" then some "INDEX" else none)
    initialPosts 5 5 "/some/deep/link" [] "INDEX" (by decide) rfl rfl).1

/-- Sanity checks of the route pattern: `/api/posts/:id` matches exactly one
extra non-empty segment. -/
theorem apiPostsIdParam_matches :
    apiPostsIdParam "/api/posts/abc" = some "abc"
  ∧ apiPostsIdParam "/api/posts" = none
  ∧ apiPostsIdParam "/api/posts/a/b" = none
  ∧ apiPostsIdParam "/api/posts/" = none :=
  ⟨rfl, rfl, rfl, rfl⟩

end PostStore
